import Mathlib

/-!
Shallow embedding of `src/kitti/publish_utils.py` (ROS_notes repository).

Modelling conventions:
* Python floats are modelled as `ℚ` (all operations the code performs on
  coordinates and colors are exact: copies, `+ 0.5`, `/ 255.0`).
* A publish call on a ROS publisher is modelled by returning the list of
  messages published during the call (in order); an uncaught Python
  exception is modelled by `Except.error` (nothing is published).
* `rospy.Time.now()` header stamps are wall-clock side effects and are not
  modelled; every other message field set by the code is.
* External library callables that the code merely invokes
  (`cv2.rectangle`, `bridge.cv2_to_imgmsg`, `tf.transformations.quaternion_from_euler`)
  are parameters of the embedding.
-/

namespace PublishUtils

/-- geometry_msgs `Point(x, y, z)`. -/
structure Point where
  x : ℚ
  y : ℚ
  z : ℚ
deriving DecidableEq, Repr

/-- One row of an `(8, 4)` corner array `corners_3d_velo`: the code reads
indices 0, 1, 2 of a row (and never the homogeneous 4th column `h`). -/
structure Corner where
  x : ℚ
  y : ℚ
  z : ℚ
  h : ℚ
deriving DecidableEq, Repr

/-- A Corner Set: an `(8, 4)` array, i.e. exactly 8 ordered corner rows. -/
def CornerSet : Type := Fin 8 → Corner

/-- `Point(p[0], p[1], p[2])` built from a corner row. -/
def pointOf (p : Corner) : Point :=
  { x := p.x, y := p.y, z := p.z }

/-- An RGBA color as set on `marker.color`. -/
structure RGBA where
  r : ℚ
  g : ℚ
  b : ℚ
  a : ℚ
deriving DecidableEq, Repr

/-- A 3D vector as set on `marker.scale` / `marker.pose.position`. -/
structure Vec3 where
  x : ℚ
  y : ℚ
  z : ℚ
deriving DecidableEq, Repr

/-- The marker actions used by the code (`Marker.ADD`). -/
inductive MarkerAction where
  | ADD
deriving DecidableEq, Repr

/-- The marker types used by the code. -/
inductive MarkerType where
  | LINE_LIST
  | LINE_STRIP
  | TEXT_VIEW_FACING
deriving DecidableEq, Repr

/-- visualization_msgs `Marker`, restricted to the fields the code assigns.
`frame_id` stands for `header.frame_id`; `header.stamp` is not modelled. -/
structure Marker where
  frame_id : String
  id : ℤ
  action : MarkerAction
  lifetime : ℚ
  type : MarkerType
  color : RGBA
  scale : Vec3
  pose_position : Vec3
  text : String
  points : List Point
deriving DecidableEq, Repr

/-- `LINES`: the fixed edge list of `publish_utils.py` lines 14-17. -/
def LINES : List (Fin 8 × Fin 8) :=
  [(0, 1), (1, 2), (2, 3), (3, 0)]     -- lower face
  ++ [(4, 5), (5, 6), (6, 7), (7, 4)]  -- upper face
  ++ [(4, 0), (5, 1), (6, 2), (7, 3)]  -- connect lower face and upper face
  ++ [(4, 1), (5, 0)]                  -- front face

/-- `FRAME_ID = "map"`. -/
def FRAME_ID : String := "map"

/-- `LIFETIME = 0.1`. -/
def LIFETIME : ℚ := 1 / 10

/-- `DETECTION_COLOR_MAP`, a dict in bgr format; lookup of any other key is
a `KeyError` (modelled by `none`). -/
def DETECTION_COLOR_MAP : String → Option (ℕ × ℕ × ℕ)
  | "Car" => some (255, 255, 0)
  | "Pedestrian" => some (0, 226, 255)
  | "Cyclist" => some (141, 40, 255)
  | _ => none

/-- The color computation of `publish_3dbox` (lines 64-74 and 108-117):
cyan when `object_types is None`, otherwise `b, g, r = DETECTION_COLOR_MAP[object_types[i]]`
divided by 255, with alpha 1.  `IndexError` / `KeyError` become `Except.error`. -/
def colorOf (object_types : Option (List String)) (i : ℕ) : Except String RGBA :=
  match object_types with
  | none => Except.ok { r := 0, g := 1, b := 1, a := 1 }
  | some ts =>
    match ts.get? i with
    | none => Except.error "IndexError: list index out of range"
    | some t =>
      match DETECTION_COLOR_MAP t with
      | none => Except.error "KeyError: unrecognized object type"
      | some (b, g, r) =>
        Except.ok { r := r / 255, g := g / 255, b := b / 255, a := 1 }

/-- The LINE_LIST marker built for one object (lines 55-84): for each pair in
`LINES`, `Point(p1[0], p1[1], p1[2])` then `Point(p2[0], p2[1], p2[2])` are
appended to `marker.points`. -/
def boxMarker (track_id : ℤ) (corners_3d_velo : CornerSet) (col : RGBA) : Marker :=
  { frame_id := FRAME_ID
    id := track_id
    action := MarkerAction.ADD
    lifetime := LIFETIME
    type := MarkerType.LINE_LIST
    color := col
    scale := { x := 1 / 10, y := 0, z := 0 }
    pose_position := { x := 0, y := 0, z := 0 }
    text := ""
    points := LINES.flatMap fun l => [pointOf (corners_3d_velo l.1), pointOf (corners_3d_velo l.2)] }

/-- The TEXT_VIEW_FACING marker built for one object when `publish_id` (lines
87-118): anchored at corner 4 offset 0.5 upward, id `track_id + 1000`. -/
def textMarker (track_id : ℤ) (corners_3d_velo : CornerSet) (col : RGBA) : Marker :=
  { frame_id := FRAME_ID
    id := track_id + 1000
    action := MarkerAction.ADD
    lifetime := LIFETIME
    type := MarkerType.TEXT_VIEW_FACING
    color := col
    scale := { x := 1, y := 1, z := 1 }
    pose_position := { x := (corners_3d_velo 4).x
                       y := (corners_3d_velo 4).y
                       z := (corners_3d_velo 4).z + 1 / 2 }
    text := toString track_id
    points := [] }

/-- The `for i, corners_3d_velo in enumerate(corners_3d_velos)` loop of
`publish_3dbox`, accumulating `marker_array.markers`.  `i` is the running
enumeration index; `track_ids[i]` raises `IndexError` when out of range; the
color lookup is performed once for the box marker and (when `publish_id`)
once more for the text marker, exactly as in the source. -/
def publish_3dbox_loop (object_types : Option (List String)) (publish_id : Bool)
    (track_ids : List ℤ) : ℕ → List CornerSet → Except String (List Marker)
  | _, [] => Except.ok []
  | i, corners_3d_velo :: rest =>
    match track_ids.get? i with
    | none => Except.error "IndexError: list index out of range"
    | some track_id =>
      match colorOf object_types i with
      | Except.error e => Except.error e
      | Except.ok col =>
        match (if publish_id then
                 match colorOf object_types i with
                 | Except.error e => Except.error e
                 | Except.ok tcol => Except.ok [textMarker track_id corners_3d_velo tcol]
               else Except.ok []) with
        | Except.error e => Except.error e
        | Except.ok textMs =>
          match publish_3dbox_loop object_types publish_id track_ids (i + 1) rest with
          | Except.error e => Except.error e
          | Except.ok ms =>
            Except.ok (boxMarker track_id corners_3d_velo col :: (textMs ++ ms))

/-- `publish_3dbox` (lines 46-122): builds the MarkerArray and publishes it
exactly once on success; an uncaught exception anywhere in the loop aborts
the call with nothing published.  The result is the list of publish calls
made, each carrying its marker list. -/
def publish_3dbox (corners_3d_velos : List CornerSet) (track_ids : List ℤ)
    (object_types : Option (List String)) (publish_id : Bool) :
    Except String (List (List Marker)) :=
  match publish_3dbox_loop object_types publish_id track_ids 0 corners_3d_velos with
  | Except.error e => Except.error e
  | Except.ok ms => Except.ok [ms]

/-- A 2D border `box` from `borders_2d_cam2s`: four float coordinates,
read as `box[0] .. box[3]`. -/
structure Box2D where
  x0 : ℚ
  y0 : ℚ
  x1 : ℚ
  y1 : ℚ
deriving DecidableEq, Repr

/-- Python `int()` on a rational: truncation toward zero. -/
def pyInt (q : ℚ) : ℤ :=
  Int.tdiv q.num q.den

/-- The rectangle color for border `i` (lines 35-38): `(255, 255, 0)` (cyan,
bgr) when `object_types is None`, else `DETECTION_COLOR_MAP[object_types[i]]`
whose failure is an uncaught `KeyError` (and an out-of-range index an
uncaught `IndexError`). -/
def borderColor (object_types : Option (List String)) (i : ℕ) :
    Except String (ℕ × ℕ × ℕ) :=
  match object_types with
  | none => Except.ok (255, 255, 0)
  | some ts =>
    match ts.get? i with
    | none => Except.error "IndexError: list index out of range"
    | some t =>
      match DETECTION_COLOR_MAP t with
      | none => Except.error "KeyError: unrecognized object type"
      | some c => Except.ok c

/-- The `for i, box in enumerate(borders_2d_cam2s)` loop of `publish_camera`
(lines 32-38): each step draws one rectangle into the image via the external
`cv2.rectangle` (parameter `rect`, taking the image, `top_left`,
`bottom_right` and the bgr color; the thickness is fixed at 2 in the source
and omitted here). -/
def drawBorders {Img : Type} (rect : Img → ℤ × ℤ → ℤ × ℤ → ℕ × ℕ × ℕ → Img)
    (object_types : Option (List String)) :
    Img → ℕ → List Box2D → Except String Img
  | img, _, [] => Except.ok img
  | img, i, box :: rest =>
    match borderColor object_types i with
    | Except.error e => Except.error e
    | Except.ok col =>
      drawBorders rect object_types
        (rect img (pyInt box.x0, pyInt box.y0) (pyInt box.x1, pyInt box.y1) col)
        (i + 1) rest

/-- The drawing phase of `publish_camera`: nothing is drawn when
`borders_2d_cam2s is None`. -/
def drawPhase {Img : Type} (rect : Img → ℤ × ℤ → ℤ × ℤ → ℕ × ℕ × ℕ → Img)
    (object_types : Option (List String)) (image : Img)
    (borders_2d_cam2s : Option (List Box2D)) : Except String Img :=
  match borders_2d_cam2s with
  | none => Except.ok image
  | some bs => drawBorders rect object_types image 0 bs

/-- The observable outcome of a `publish_camera` call that did not raise an
uncaught exception: the final contents of the caller-supplied image buffer
(mutated in place by the source), the image messages published, and the
`rospy.loginfo` lines emitted. -/
structure CamOutcome (Img Msg : Type) where
  image : Img
  published : List Msg
  logs : List String
deriving Repr

/-- `publish_camera` (lines 24-44).  `convert` is the external
`bridge.cv2_to_imgmsg(image, "bgr8")`; a `CvBridgeError` from it is the
`Except.error` case of `convert` and is caught and logged (lines 41-42),
after which the trailing `if log` still runs; a color-lookup
`KeyError`/`IndexError` from the drawing loop is not a `CvBridgeError` and
propagates uncaught. -/
def publish_camera {Img Msg : Type}
    (rect : Img → ℤ × ℤ → ℤ × ℤ → ℕ × ℕ × ℕ → Img)
    (convert : Img → Except String Msg) (image : Img)
    (borders_2d_cam2s : Option (List Box2D)) (object_types : Option (List String))
    (log : Bool) : Except String (CamOutcome Img Msg) :=
  match drawPhase rect object_types image borders_2d_cam2s with
  | Except.error e => Except.error e
  | Except.ok img2 =>
    match convert img2 with
    | Except.ok msg =>
      Except.ok { image := img2, published := [msg]
                  logs := if log then ["camera image published"] else [] }
    | Except.error e =>
      Except.ok { image := img2, published := []
                  logs := e :: (if log then ["camera image published"] else []) }

/-- `publish_car_fov` (lines 124-147): the single LINE_STRIP marker published,
with unset fields at their `Marker()` defaults (id 0, infinite lifetime 0). -/
def publish_car_fov : List Marker :=
  [{ frame_id := FRAME_ID
     id := 0
     action := MarkerAction.ADD
     lifetime := 0
     type := MarkerType.LINE_STRIP
     color := { r := 0, g := 1, b := 0, a := 1 }
     scale := { x := 1 / 5, y := 0, z := 0 }
     pose_position := { x := 0, y := 0, z := 0 }
     text := ""
     points := [{ x := 10, y := -10, z := 0 }, { x := 0, y := 0, z := 0 },
                { x := 10, y := 10, z := 0 }] }]

/-- sensor_msgs `PointField(name, offset, datatype, count)`. -/
structure PointField where
  name : String
  offset : ℕ
  datatype : ℕ
  count : ℕ
deriving DecidableEq, Repr

/-- `PointField.FLOAT32`. -/
def FLOAT32 : ℕ := 7

/-- sensor_msgs `PointCloud2` as assembled by `pcl2.create_cloud` /
`create_cloud_xyz32`: the header frame, the field layout and the point rows. -/
structure PointCloud2 where
  frame_id : String
  fields : List PointField
  rows : List (List ℚ)
deriving DecidableEq, Repr

/-- The standard xyz field layout used by `pcl2.create_cloud_xyz32`. -/
def xyzFields : List PointField :=
  [{ name := "x", offset := 0, datatype := FLOAT32, count := 1 },
   { name := "y", offset := 4, datatype := FLOAT32, count := 1 },
   { name := "z", offset := 8, datatype := FLOAT32, count := 1 }]

/-- `publish_point_cloud` (lines 149-185): the `assert` on the format string
raises `AssertionError` before the header is built and before anything is
published; each valid branch publishes exactly one cloud. -/
def publish_point_cloud (point_cloud : List (List ℚ)) (format : String) :
    Except String (List PointCloud2) :=
  if format ∈ ["xyz", "xyzi", "xyzrgb"] then
    if format = "xyz" then
      Except.ok [{ frame_id := FRAME_ID, fields := xyzFields
                   rows := point_cloud.map fun p => p.take 3 }]
    else if format = "xyzi" then
      Except.ok [{ frame_id := FRAME_ID
                   fields := xyzFields ++
                     [{ name := "i", offset := 12, datatype := FLOAT32, count := 1 }]
                   rows := point_cloud }]
    else
      Except.ok [{ frame_id := FRAME_ID
                   fields := xyzFields ++
                     [{ name := "rgb", offset := 12, datatype := FLOAT32, count := 1 }]
                   rows := point_cloud }]
  else
    Except.error "AssertionError"

/-- The fields of a kitti IMU record read by `publish_imu`. -/
structure ImuData where
  roll : ℚ
  pitch : ℚ
  yaw : ℚ
  af : ℚ
  al : ℚ
  au : ℚ
  wf : ℚ
  wl : ℚ
  wu : ℚ
deriving DecidableEq, Repr

/-- sensor_msgs `Imu`, restricted to the fields the code assigns. -/
structure ImuMsg where
  frame_id : String
  orientation : ℚ × ℚ × ℚ × ℚ
  linear_acceleration : Vec3
  angular_velocity : Vec3
deriving DecidableEq, Repr

/-- `publish_imu` (lines 187-209); `quaternion_from_euler` is the external
`tf.transformations.quaternion_from_euler`, returning `(q[0], q[1], q[2], q[3])`. -/
def publish_imu (quaternion_from_euler : ℚ → ℚ → ℚ → ℚ × ℚ × ℚ × ℚ)
    (imu_data : ImuData) : List ImuMsg :=
  [{ frame_id := FRAME_ID
     orientation := quaternion_from_euler imu_data.roll imu_data.pitch imu_data.yaw
     linear_acceleration := { x := imu_data.af, y := imu_data.al, z := imu_data.au }
     angular_velocity := { x := imu_data.wf, y := imu_data.wl, z := imu_data.wu } }]

/-- The fields of a kitti GPS record read by `publish_gps`. -/
structure GpsData where
  lat : ℚ
  lon : ℚ
  alt : ℚ
deriving DecidableEq, Repr

/-- sensor_msgs `NavSatFix`, restricted to the fields the code assigns. -/
structure NavSatFix where
  frame_id : String
  latitude : ℚ
  longitude : ℚ
  altitude : ℚ
deriving DecidableEq, Repr

/-- `publish_gps` (lines 211-224). -/
def publish_gps (gps_data : GpsData) : List NavSatFix :=
  [{ frame_id := FRAME_ID, latitude := gps_data.lat
     longitude := gps_data.lon, altitude := gps_data.alt }]

/-- A trajectory point handed to `publish_location`: the code reads `p[0]`
and `p[1]`; any further coordinates of the point live in `rest` and are
never read. -/
structure LocPoint where
  p0 : ℚ
  p1 : ℚ
  rest : List ℚ
deriving DecidableEq, Repr

/-- `publish_location` (lines 226-248): one LINE_STRIP marker whose points
are `Point(p[0], p[1], 0)` for each input point. -/
def publish_location (points : List LocPoint) : List Marker :=
  [{ frame_id := FRAME_ID
     id := 0
     action := MarkerAction.ADD
     lifetime := 0
     type := MarkerType.LINE_STRIP
     color := { r := 1, g := 0, b := 0, a := 1 }
     scale := { x := 1 / 5, y := 0, z := 0 }
     pose_position := { x := 0, y := 0, z := 0 }
     text := ""
     points := points.map fun p => { x := p.p0, y := p.p1, z := 0 } }]

/-- The LINE_LIST (polyline) markers of a marker list. -/
def lineMarkers (ms : List Marker) : List Marker :=
  ms.filter fun m => decide (m.type = MarkerType.LINE_LIST)

/-- The ids of the LINE_LIST (polyline) markers of a marker list. -/
def lineIds (ms : List Marker) : List ℤ :=
  (lineMarkers ms).map fun m => m.id

/-- The ids of the TEXT_VIEW_FACING (text) markers of a marker list. -/
def textIds (ms : List Marker) : List ℤ :=
  (ms.filter fun m => decide (m.type = MarkerType.TEXT_VIEW_FACING)).map fun m => m.id

/-- The corner rows of a unit cube at the origin, in the documented layout
(0-3 lower face, 4-7 upper face), used as a concrete test input. -/
def cubeRows : List Corner :=
  [{ x := 0, y := 0, z := 0, h := 1 }, { x := 1, y := 0, z := 0, h := 1 },
   { x := 1, y := 1, z := 0, h := 1 }, { x := 0, y := 1, z := 0, h := 1 },
   { x := 0, y := 0, z := 1, h := 1 }, { x := 1, y := 0, z := 1, h := 1 },
   { x := 1, y := 1, z := 1, h := 1 }, { x := 0, y := 1, z := 1, h := 1 }]

/-- The unit-cube Corner Set. -/
def cubeCorners : CornerSet := fun i =>
  cubeRows.getD i.val { x := 0, y := 0, z := 0, h := 0 }

/-! ### Helper lemmas -/

lemma flatMap_pair_get_even {α β : Type} (f g : α → β) :
    ∀ (l : List α) (k : ℕ),
      (l.flatMap fun x => [f x, g x]).get? (2 * k) = (l.get? k).map f
  | [], k => by simp
  | a :: l, 0 => by simp
  | a :: l, k + 1 => by
    have ih := flatMap_pair_get_even f g l k
    rw [show 2 * (k + 1) = 2 * k + 1 + 1 by ring]
    simpa [List.flatMap_cons] using ih

lemma flatMap_pair_get_odd {α β : Type} (f g : α → β) :
    ∀ (l : List α) (k : ℕ),
      (l.flatMap fun x => [f x, g x]).get? (2 * k + 1) = (l.get? k).map g
  | [], k => by simp
  | a :: l, 0 => by simp
  | a :: l, k + 1 => by
    have ih := flatMap_pair_get_odd f g l k
    rw [show 2 * (k + 1) + 1 = 2 * k + 1 + 1 + 1 by ring]
    simpa [List.flatMap_cons] using ih

lemma boxMarker_type (tid : ℤ) (c : CornerSet) (col : RGBA) :
    (boxMarker tid c col).type = MarkerType.LINE_LIST := rfl

lemma textMarker_type (tid : ℤ) (c : CornerSet) (col : RGBA) :
    (textMarker tid c col).type = MarkerType.TEXT_VIEW_FACING := rfl

lemma lineMarkers_cons_box (tid : ℤ) (c : CornerSet) (col : RGBA) (l : List Marker) :
    lineMarkers (boxMarker tid c col :: l) = boxMarker tid c col :: lineMarkers l := by
  simp [lineMarkers, List.filter_cons, boxMarker_type]

lemma lineMarkers_cons_text (tid : ℤ) (c : CornerSet) (col : RGBA) (l : List Marker) :
    lineMarkers (textMarker tid c col :: l) = lineMarkers l := by
  simp [lineMarkers, List.filter_cons, textMarker_type]

lemma loop_nil (ot : Option (List String)) (pid : Bool) (tids : List ℤ) (i : ℕ) :
    publish_3dbox_loop ot pid tids i [] = Except.ok [] := rfl

/-- Inversion of one successful iteration of the `publish_3dbox` loop. -/
lemma loop_cons_ok {ot : Option (List String)} {pid : Bool} {tids : List ℤ}
    {i : ℕ} {c : CornerSet} {cs : List CornerSet} {ms : List Marker}
    (h : publish_3dbox_loop ot pid tids i (c :: cs) = Except.ok ms) :
    ∃ tid col ms', tids.get? i = some tid ∧ colorOf ot i = Except.ok col ∧
      publish_3dbox_loop ot pid tids (i + 1) cs = Except.ok ms' ∧
      ms = boxMarker tid c col :: ((if pid then [textMarker tid c col] else []) ++ ms') := by
  rw [publish_3dbox_loop] at h
  cases htid : tids.get? i with
  | none => rw [htid] at h; exact absurd h (by simp)
  | some tid =>
    rw [htid] at h
    cases hcol : colorOf ot i with
    | error e => rw [hcol] at h; exact absurd h (by simp)
    | ok col =>
      rw [hcol] at h
      cases hrec : publish_3dbox_loop ot pid tids (i + 1) cs with
      | error e =>
        rw [hrec] at h
        cases pid <;> simp at h
      | ok ms' =>
        rw [hrec] at h
        refine ⟨tid, col, ms', rfl, rfl, rfl, ?_⟩
        cases pid <;> simpa using h.symm

/-- Every marker built by the loop is a box marker carrying some track id of
`track_ids`, or a text marker carrying such a track id offset by 1000. -/
lemma loop_ok_mem (ot : Option (List String)) (pid : Bool) (tids : List ℤ) :
    ∀ (cs : List CornerSet) (i : ℕ) (ms : List Marker),
      publish_3dbox_loop ot pid tids i cs = Except.ok ms →
      ∀ m ∈ ms, ∃ tid, tid ∈ tids ∧
        ((m.type = MarkerType.LINE_LIST ∧ m.id = tid) ∨
         (m.type = MarkerType.TEXT_VIEW_FACING ∧ m.id = tid + 1000))
  | [], _, ms, h, m, hm => by
    rw [loop_nil] at h
    cases h
    cases hm
  | c :: cs, i, ms, h, m, hm => by
    obtain ⟨tid, col, ms', htid, _, hrec, rfl⟩ := loop_cons_ok h
    have htm : tid ∈ tids := List.get?_mem htid
    rcases List.mem_cons.mp hm with rfl | hm'
    · exact ⟨tid, htm, Or.inl ⟨rfl, rfl⟩⟩
    · rcases List.mem_append.mp hm' with hmt | hmr
      · cases pid with
        | false => cases hmt
        | true =>
          rcases List.mem_singleton.mp (by simpa using hmt) with rfl
          exact ⟨tid, htm, Or.inr ⟨rfl, rfl⟩⟩
      · exact loop_ok_mem ot pid tids cs (i + 1) ms' hrec m hmr

/-- Every marker built by the loop carries `FRAME_ID` in its header. -/
lemma loop_ok_frame (ot : Option (List String)) (pid : Bool) (tids : List ℤ) :
    ∀ (cs : List CornerSet) (i : ℕ) (ms : List Marker),
      publish_3dbox_loop ot pid tids i cs = Except.ok ms →
      ∀ m ∈ ms, m.frame_id = FRAME_ID
  | [], _, ms, h, m, hm => by
    rw [loop_nil] at h
    cases h
    cases hm
  | c :: cs, i, ms, h, m, hm => by
    obtain ⟨tid, col, ms', _, _, hrec, rfl⟩ := loop_cons_ok h
    rcases List.mem_cons.mp hm with rfl | hm'
    · rfl
    · rcases List.mem_append.mp hm' with hmt | hmr
      · cases pid with
        | false => cases hmt
        | true =>
          rcases List.mem_singleton.mp (by simpa using hmt) with rfl
          rfl
      · exact loop_ok_frame ot pid tids cs (i + 1) ms' hrec m hmr

/-- A successful loop run resolved a color for every object index. -/
lemma loop_ok_colors (ot : Option (List String)) (pid : Bool) (tids : List ℤ) :
    ∀ (cs : List CornerSet) (i : ℕ) (ms : List Marker),
      publish_3dbox_loop ot pid tids i cs = Except.ok ms →
      ∀ j, j < cs.length → ∃ col, colorOf ot (i + j) = Except.ok col
  | [], _, _, _, j, hj => absurd hj (by simp)
  | c :: cs, i, ms, h, j, hj => by
    obtain ⟨tid, col, ms', _, hcol, hrec, rfl⟩ := loop_cons_ok h
    cases j with
    | zero => exact ⟨col, hcol⟩
    | succ j =>
      have := loop_ok_colors ot pid tids cs (i + 1) ms' hrec j
        (by simpa [Nat.succ_lt_succ_iff] using hj)
      simpa [Nat.add_assoc, Nat.add_comm 1 j] using this

/-- The LINE_LIST markers of a successful loop run: one per object, in
order, each the box marker of the corresponding Corner Set. -/
lemma loop_lineMarkers (ot : Option (List String)) (pid : Bool) (tids : List ℤ) :
    ∀ (cs : List CornerSet) (i : ℕ) (ms : List Marker),
      publish_3dbox_loop ot pid tids i cs = Except.ok ms →
      (lineMarkers ms).length = cs.length ∧
      ∀ j c, cs.get? j = some c →
        ∃ tid col, (lineMarkers ms).get? j = some (boxMarker tid c col)
  | [], _, ms, h => by
    rw [loop_nil] at h
    cases h
    exact ⟨rfl, by intro j c hc; cases hc⟩
  | c :: cs, i, ms, h => by
    obtain ⟨tid, col, ms', _, _, hrec, rfl⟩ := loop_cons_ok h
    obtain ⟨ihlen, ihget⟩ := loop_lineMarkers ot pid tids cs (i + 1) ms' hrec
    have hline : lineMarkers (boxMarker tid c col ::
        ((if pid then [textMarker tid c col] else []) ++ ms'))
        = boxMarker tid c col :: lineMarkers ms' := by
      cases pid <;>
        simp [lineMarkers_cons_box, lineMarkers_cons_text]
    rw [hline]
    constructor
    · simpa using ihlen
    · intro j c' hc'
      cases j with
      | zero =>
        cases hc'
        exact ⟨tid, col, rfl⟩
      | succ j => exact ihget j c' (by simpa using hc')

/-- With `publish_id` enabled, the loop output alternates box and text
markers: positions `2j` / `2j + 1` hold a LINE_LIST marker and its paired
TEXT_VIEW_FACING marker, with identical colors. -/
lemma loop_pairs (ot : Option (List String)) (tids : List ℤ) :
    ∀ (cs : List CornerSet) (i : ℕ) (ms : List Marker),
      publish_3dbox_loop ot true tids i cs = Except.ok ms →
      ∀ j m tm, ms.get? (2 * j) = some m → ms.get? (2 * j + 1) = some tm →
        m.type = MarkerType.LINE_LIST ∧ tm.type = MarkerType.TEXT_VIEW_FACING ∧
        m.color = tm.color
  | [], _, ms, h, j, m, tm, hm, htm => by
    rw [loop_nil] at h
    cases h
    cases hm
  | c :: cs, i, ms, h, j, m, tm, hm, htm => by
    obtain ⟨tid, col, ms', _, _, hrec, rfl⟩ := loop_cons_ok h
    simp only [if_true] at hm htm
    cases j with
    | zero =>
      simp only [Nat.mul_zero, List.get?] at hm htm
      cases hm
      cases htm
      exact ⟨rfl, rfl, rfl⟩
    | succ j =>
      rw [show 2 * (j + 1) = 2 * j + 1 + 1 by ring] at hm
      rw [show 2 * (j + 1) + 1 = 2 * j + 1 + 1 + 1 by ring] at htm
      simp only [List.cons_append, List.nil_append, List.get?] at hm htm
      exact loop_pairs ot tids cs (i + 1) ms' hrec j m tm hm htm

/-- A successful `publish_3dbox` call made exactly one publish, whose marker
list is the successful loop output. -/
lemma publish_3dbox_ok_loop {corners : List CornerSet} {tids : List ℤ}
    {ot : Option (List String)} {pid : Bool} {pubs : List (List Marker)}
    (h : publish_3dbox corners tids ot pid = Except.ok pubs) :
    ∃ ms, pubs = [ms] ∧ publish_3dbox_loop ot pid tids 0 corners = Except.ok ms := by
  unfold publish_3dbox at h
  cases hloop : publish_3dbox_loop ot pid tids 0 corners with
  | error e => rw [hloop] at h; exact absurd h (by simp)
  | ok ms => rw [hloop] at h; exact ⟨ms, by simpa using h.symm, rfl⟩

/-! ### Claim theorems -/

/-- C7: for the empty input sequence of tracked objects, `publish_3dbox`
publishes exactly once, and the published marker array is empty. -/
theorem publish_3dbox_empty_batch :
    ∀ (track_ids : List ℤ) (object_types : Option (List String)) (publish_id : Bool),
      publish_3dbox [] track_ids object_types publish_id = Except.ok [[]] :=
  fun _ _ _ => rfl

/-- C5: for every point cloud and every format string outside the three
recognized layouts, `publish_point_cloud` fails its precondition assertion
and publishes nothing. -/
theorem publish_point_cloud_bad_format_fatal (point_cloud : List (List ℚ))
    (format : String) (h : format ∉ (["xyz", "xyzi", "xyzrgb"] : List String)) :
    publish_point_cloud point_cloud format = Except.error "AssertionError" := by
  simp [publish_point_cloud, h]

/-- Witness for C5 at the concrete format string "bad". -/
theorem publish_point_cloud_bad_format_fatal_witness :
    ("bad" ∉ (["xyz", "xyzi", "xyzrgb"] : List String)) ∧
    publish_point_cloud [[1, 2, 3]] "bad" = Except.error "AssertionError" :=
  ⟨by decide, publish_point_cloud_bad_format_fatal [[1, 2, 3]] "bad" (by decide)⟩

/-- C10: `publish_location` publishes one point per input point, with the
first two coordinates copied and `z` set exactly to 0 (any further input
coordinates are discarded). -/
theorem publish_location_z_zero (points : List LocPoint) :
    ∀ m ∈ publish_location points,
      m.points.length = points.length ∧
      ∀ j p, points.get? j = some p →
        m.points.get? j = some { x := p.p0, y := p.p1, z := 0 } := by
  intro m hm
  rcases List.mem_singleton.mp hm with rfl
  refine ⟨by simp, ?_⟩
  intro j p hp
  simp only [List.get?_map, hp, Option.map_some']

/-- Witness for C10 at a concrete one-point trajectory with a third
coordinate. -/
theorem publish_location_z_zero_witness :
    ∃ m, m ∈ publish_location [LocPoint.mk 1 2 [3]] ∧
      m.points.length = 1 ∧ m.points.get? 0 = some { x := 1, y := 2, z := 0 } := by
  refine ⟨{ frame_id := FRAME_ID, id := 0, action := MarkerAction.ADD, lifetime := 0
            type := MarkerType.LINE_STRIP, color := { r := 1, g := 0, b := 0, a := 1 }
            scale := { x := 1 / 5, y := 0, z := 0 }
            pose_position := { x := 0, y := 0, z := 0 }
            text := "", points := [{ x := 1, y := 2, z := 0 }] }, ?_, ?_, ?_⟩
  · simp [publish_location]
  · exact (publish_location_z_zero [LocPoint.mk 1 2 [3]] _ (by simp [publish_location])).1
  · exact (publish_location_z_zero [LocPoint.mk 1 2 [3]] _
      (by simp [publish_location])).2 0 (LocPoint.mk 1 2 [3]) rfl

/-- C4: an object whose type label is outside the closed set of
`DETECTION_COLOR_MAP` keys makes the whole `publish_3dbox` call raise an
uncaught `KeyError`: nothing is published and that object's update is
aborted. -/
theorem publish_3dbox_unknown_type_fatal (corners_3d_velos : List CornerSet)
    (track_ids : List ℤ) (object_types : List String) (publish_id : Bool)
    (i : ℕ) (c : CornerSet) (t : String)
    (hc : corners_3d_velos.get? i = some c)
    (ht : object_types.get? i = some t)
    (hmap : DETECTION_COLOR_MAP t = none) :
    ∃ e, publish_3dbox corners_3d_velos track_ids (some object_types) publish_id
      = Except.error e := by
  cases h : publish_3dbox corners_3d_velos track_ids (some object_types) publish_id with
  | error e => exact ⟨e, rfl⟩
  | ok pubs =>
    exfalso
    obtain ⟨ms, _, hloop⟩ := publish_3dbox_ok_loop h
    have hlt : i < corners_3d_velos.length := by
      rcases List.get?_eq_some.mp hc with ⟨hlt, _⟩
      exact hlt
    obtain ⟨col, hcol⟩ :=
      loop_ok_colors (some object_types) publish_id track_ids corners_3d_velos 0 ms hloop i
        hlt
    rw [Nat.zero_add] at hcol
    rw [List.get?_eq_getElem?] at ht
    simp [colorOf, ht, hmap] at hcol

/-- Witness for C4 at the concrete unknown label "Truck". -/
theorem publish_3dbox_unknown_type_fatal_witness :
    DETECTION_COLOR_MAP "Truck" = none ∧
    ∃ e, publish_3dbox [cubeCorners] [7] (some ["Truck"]) true = Except.error e :=
  ⟨rfl, publish_3dbox_unknown_type_fatal [cubeCorners] [7] ["Truck"] true 0 cubeCorners
    "Truck" rfl rfl rfl⟩

/-- C1 counterexample: on a unit cube, the single LINE_LIST marker's points
list has 28 entries (the edge list has 14 pairs), not the claimed
24 entries / 12 edges. -/
theorem publish_3dbox_line_marker_24_refuted :
    ((publish_3dbox [cubeCorners] [1] none false).map fun pubs =>
        pubs.map fun ms => ms.map fun m => m.points.length)
      = Except.ok [[28]] ∧
    LINES.length = 14 ∧ 28 ≠ 24 :=
  ⟨rfl, rfl, by decide⟩

/-- C1 (amended): per object one LINE_LIST marker is emitted, whose points
list has exactly 28 entries (14 edges times 2 endpoints); the k-th edge
connects the corners at the index pair given by `LINES`, and each endpoint's
x, y, z coordinates are copied verbatim from the corresponding corner. -/
theorem publish_3dbox_line_marker_points (corners_3d_velos : List CornerSet)
    (track_ids : List ℤ) (object_types : Option (List String)) (publish_id : Bool)
    (ms : List Marker)
    (hok : publish_3dbox corners_3d_velos track_ids object_types publish_id
      = Except.ok [ms]) :
    (lineMarkers ms).length = corners_3d_velos.length ∧
    ∀ i c, corners_3d_velos.get? i = some c →
      ∃ m, (lineMarkers ms).get? i = some m ∧
        m.points.length = 28 ∧
        ∀ k a b, LINES.get? k = some (a, b) →
          m.points.get? (2 * k) = some { x := (c a).x, y := (c a).y, z := (c a).z } ∧
          m.points.get? (2 * k + 1) = some { x := (c b).x, y := (c b).y, z := (c b).z } := by
  obtain ⟨ms', hms, hloop⟩ := publish_3dbox_ok_loop hok
  have h2 : ms' = ms := by simpa using hms.symm
  rw [h2] at hloop
  obtain ⟨hlen, hget⟩ :=
    loop_lineMarkers object_types publish_id track_ids corners_3d_velos 0 ms hloop
  refine ⟨hlen, ?_⟩
  intro i c hc
  obtain ⟨tid, col, hm⟩ := hget i c hc
  refine ⟨boxMarker tid c col, hm, rfl, ?_⟩
  intro k a b hk
  constructor
  · have h1 := flatMap_pair_get_even (fun l : Fin 8 × Fin 8 => pointOf (c l.1))
      (fun l => pointOf (c l.2)) LINES k
    rw [hk] at h1
    exact h1
  · have h1 := flatMap_pair_get_odd (fun l : Fin 8 × Fin 8 => pointOf (c l.1))
      (fun l => pointOf (c l.2)) LINES k
    rw [hk] at h1
    exact h1

/-- Witness for C1 (amended) at a concrete one-object input. -/
theorem publish_3dbox_line_marker_points_witness :
    (lineMarkers [boxMarker 1 cubeCorners { r := 0, g := 1, b := 1, a := 1 }]).length
        = ([cubeCorners] : List CornerSet).length ∧
    ∀ i c, ([cubeCorners] : List CornerSet).get? i = some c →
      ∃ m, (lineMarkers [boxMarker 1 cubeCorners
              { r := 0, g := 1, b := 1, a := 1 }]).get? i = some m ∧
        m.points.length = 28 ∧
        ∀ k a b, LINES.get? k = some (a, b) →
          m.points.get? (2 * k) = some { x := (c a).x, y := (c a).y, z := (c a).z } ∧
          m.points.get? (2 * k + 1) = some { x := (c b).x, y := (c b).y, z := (c b).z } :=
  publish_3dbox_line_marker_points [cubeCorners] [1] none false
    [boxMarker 1 cubeCorners { r := 0, g := 1, b := 1, a := 1 }] rfl

/-- C2 counterexample: with track ids 0 and 1000 in one batch, the text id
1000 collides with the polyline id 1000, so the text-id set is not disjoint
from the polyline-id set. -/
theorem publish_3dbox_ids_disjoint_refuted :
    ((publish_3dbox [cubeCorners, cubeCorners] [0, 1000] none true).map fun pubs =>
        pubs.map fun ms => (lineIds ms, textIds ms))
      = Except.ok [([0, 1000], [1000, 2000])] ∧
    ¬ ∀ x ∈ ([1000, 2000] : List ℤ), x ∉ ([0, 1000] : List ℤ) :=
  ⟨rfl, by decide⟩

/-- C2 (amended): text ids are polyline ids offset by exactly 1000, so the
two id sets of a batch are disjoint whenever no two track ids of the batch
differ by exactly 1000 (in particular whenever all track ids lie in
`[0, 1000)`). -/
theorem publish_3dbox_ids_disjoint_of_sep (corners_3d_velos : List CornerSet)
    (track_ids : List ℤ) (object_types : Option (List String)) (publish_id : Bool)
    (ms : List Marker)
    (hok : publish_3dbox corners_3d_velos track_ids object_types publish_id
      = Except.ok [ms])
    (hsep : ∀ a ∈ track_ids, ∀ b ∈ track_ids, b ≠ a + 1000) :
    ∀ x ∈ textIds ms, x ∉ lineIds ms := by
  obtain ⟨ms', hms, hloop⟩ := publish_3dbox_ok_loop hok
  have h2 : ms' = ms := by simpa using hms.symm
  rw [h2] at hloop
  intro x hx hx2
  simp only [textIds, lineIds, lineMarkers, List.mem_map, List.mem_filter,
    decide_eq_true_eq] at hx hx2
  obtain ⟨tm, ⟨htm_ms, htm_ty⟩, rfl⟩ := hx
  obtain ⟨m, ⟨hm_ms, hm_ty⟩, hmid⟩ := hx2
  obtain ⟨tidb, htb, hdb⟩ :=
    loop_ok_mem object_types publish_id track_ids corners_3d_velos 0 ms hloop tm htm_ms
  obtain ⟨tida, hta, hda⟩ :=
    loop_ok_mem object_types publish_id track_ids corners_3d_velos 0 ms hloop m hm_ms
  rcases hdb with ⟨h1, _⟩ | ⟨_, h2b⟩
  · rw [htm_ty] at h1
    exact absurd h1 (by decide)
  rcases hda with ⟨_, hida⟩ | ⟨h1a, _⟩
  · exact hsep tidb htb tida hta (hida.symm.trans (hmid.trans h2b))
  · rw [hm_ty] at h1a
    exact absurd h1a (by decide)

/-- Witness for C2 (amended) at a concrete one-object batch with track id 3. -/
theorem publish_3dbox_ids_disjoint_of_sep_witness :
    (∀ a ∈ ([3] : List ℤ), ∀ b ∈ ([3] : List ℤ), b ≠ a + 1000) ∧
    ∀ x ∈ textIds [boxMarker 3 cubeCorners { r := 0, g := 1, b := 1, a := 1 },
                   textMarker 3 cubeCorners { r := 0, g := 1, b := 1, a := 1 }],
      x ∉ lineIds [boxMarker 3 cubeCorners { r := 0, g := 1, b := 1, a := 1 },
                   textMarker 3 cubeCorners { r := 0, g := 1, b := 1, a := 1 }] :=
  ⟨by decide, publish_3dbox_ids_disjoint_of_sep [cubeCorners] [3] none true
    [boxMarker 3 cubeCorners { r := 0, g := 1, b := 1, a := 1 },
     textMarker 3 cubeCorners { r := 0, g := 1, b := 1, a := 1 }] rfl (by decide)⟩

/-- C3: in a batch published with `publish_id` enabled, the marker at each
even position is a LINE_LIST marker and the one after it is its paired
TEXT_VIEW_FACING marker, and the two carry identical RGBA colors (also when
`object_types` is `none`). -/
theorem publish_3dbox_paired_colors (corners_3d_velos : List CornerSet)
    (track_ids : List ℤ) (object_types : Option (List String)) (ms : List Marker)
    (hok : publish_3dbox corners_3d_velos track_ids object_types true
      = Except.ok [ms]) :
    ∀ j m tm, ms.get? (2 * j) = some m → ms.get? (2 * j + 1) = some tm →
      m.type = MarkerType.LINE_LIST ∧ tm.type = MarkerType.TEXT_VIEW_FACING ∧
      m.color = tm.color := by
  obtain ⟨ms', hms, hloop⟩ := publish_3dbox_ok_loop hok
  have h2 : ms' = ms := by simpa using hms.symm
  rw [h2] at hloop
  exact loop_pairs object_types track_ids corners_3d_velos 0 ms hloop

/-- Witness for C3 at a concrete one-object batch. -/
theorem publish_3dbox_paired_colors_witness :
    (boxMarker 3 cubeCorners { r := 0, g := 1, b := 1, a := 1 }).type
        = MarkerType.LINE_LIST ∧
    (textMarker 3 cubeCorners { r := 0, g := 1, b := 1, a := 1 }).type
        = MarkerType.TEXT_VIEW_FACING ∧
    (boxMarker 3 cubeCorners { r := 0, g := 1, b := 1, a := 1 }).color
        = (textMarker 3 cubeCorners { r := 0, g := 1, b := 1, a := 1 }).color :=
  publish_3dbox_paired_colors [cubeCorners] [3] none
    [boxMarker 3 cubeCorners { r := 0, g := 1, b := 1, a := 1 },
     textMarker 3 cubeCorners { r := 0, g := 1, b := 1, a := 1 }] rfl 0 _ _ rfl rfl

/-- C6: a `CvBridgeError` raised by the image conversion in `publish_camera`
is caught and logged: the call returns normally with no image message
published, while any error from the drawing phase (the only other failure
site of the function) propagates uncaught. -/
theorem publish_camera_cvbridge_recoverable {Img Msg : Type}
    (rect : Img → ℤ × ℤ → ℤ × ℤ → ℕ × ℕ × ℕ → Img)
    (convert : Img → Except String Msg) (image : Img)
    (borders_2d_cam2s : Option (List Box2D)) (object_types : Option (List String))
    (log : Bool) :
    (∀ img2 e, drawPhase rect object_types image borders_2d_cam2s = Except.ok img2 →
       convert img2 = Except.error e →
       publish_camera rect convert image borders_2d_cam2s object_types log =
         Except.ok { image := img2, published := []
                     logs := e :: (if log then ["camera image published"] else []) }) ∧
    (∀ e, drawPhase rect object_types image borders_2d_cam2s = Except.error e →
       publish_camera rect convert image borders_2d_cam2s object_types log
         = Except.error e) := by
  constructor
  · intro img2 e hd hc
    simp [publish_camera, hd, hc]
  · intro e hd
    simp [publish_camera, hd]

/-- Witness for C6 at a concrete failing conversion. -/
theorem publish_camera_cvbridge_recoverable_witness :
    @publish_camera ℕ ℕ (fun img _ _ _ => img) (fun _ => Except.error "CvBridgeError")
        0 none none false
      = Except.ok { image := 0, published := [], logs := ["CvBridgeError"] } :=
  (publish_camera_cvbridge_recoverable (fun img _ _ _ => img)
    (fun _ => Except.error "CvBridgeError") 0 none none false).1 0 "CvBridgeError" rfl rfl

/-- C8: every message any publish function emits (3D boxes with their text
labels, FOV lines, point clouds, IMU, GPS, trajectory) carries the fixed
frame name "map" in its header. -/
theorem publish_frames_map :
    FRAME_ID = "map" ∧
    (∀ (corners_3d_velos : List CornerSet) (track_ids : List ℤ)
        (object_types : Option (List String)) (publish_id : Bool) (ms : List Marker),
      publish_3dbox corners_3d_velos track_ids object_types publish_id
        = Except.ok [ms] →
      ∀ m ∈ ms, m.frame_id = "map") ∧
    (∀ m ∈ publish_car_fov, m.frame_id = "map") ∧
    (∀ (point_cloud : List (List ℚ)) (format : String) (msgs : List PointCloud2),
      publish_point_cloud point_cloud format = Except.ok msgs →
      ∀ msg ∈ msgs, msg.frame_id = "map") ∧
    (∀ (qfe : ℚ → ℚ → ℚ → ℚ × ℚ × ℚ × ℚ) (d : ImuData),
      ∀ msg ∈ publish_imu qfe d, msg.frame_id = "map") ∧
    (∀ d : GpsData, ∀ msg ∈ publish_gps d, msg.frame_id = "map") ∧
    (∀ points : List LocPoint, ∀ m ∈ publish_location points, m.frame_id = "map") := by
  refine ⟨rfl, ?_, ?_, ?_, ?_, ?_, ?_⟩
  · intro corners tids ot pid ms hok m hm
    obtain ⟨ms', hms, hloop⟩ := publish_3dbox_ok_loop hok
    have h2 : ms' = ms := by simpa using hms.symm
    rw [h2] at hloop
    exact loop_ok_frame ot pid tids corners 0 ms hloop m hm
  · intro m hm
    rcases List.mem_singleton.mp hm with rfl
    rfl
  · intro pc fmt msgs hok msg hmsg
    rw [publish_point_cloud] at hok
    split_ifs at hok
    · injection hok with h
      subst h
      rcases List.mem_singleton.mp hmsg with rfl
      rfl
    · injection hok with h
      subst h
      rcases List.mem_singleton.mp hmsg with rfl
      rfl
    · injection hok with h
      subst h
      rcases List.mem_singleton.mp hmsg with rfl
      rfl
  · intro qfe d msg hmsg
    rcases List.mem_singleton.mp hmsg with rfl
    rfl
  · intro d msg hmsg
    rcases List.mem_singleton.mp hmsg with rfl
    rfl
  · intro pts m hm
    rcases List.mem_singleton.mp hm with rfl
    rfl

/-- Witness for C8 at concrete inputs of each publish function. -/
theorem publish_frames_map_witness :
    (∀ m ∈ [boxMarker 3 cubeCorners { r := 0, g := 1, b := 1, a := 1 },
            textMarker 3 cubeCorners { r := 0, g := 1, b := 1, a := 1 }],
      m.frame_id = "map") ∧
    (∀ m ∈ publish_car_fov, m.frame_id = "map") ∧
    (∀ msg ∈ [({ frame_id := FRAME_ID, fields := xyzFields
                 rows := [[(1 : ℚ), 2, 3]] } : PointCloud2)], msg.frame_id = "map") ∧
    (∀ msg ∈ publish_imu (fun _ _ _ => (0, 0, 0, 1))
        { roll := 0, pitch := 0, yaw := 0, af := 0, al := 0, au := 0
          wf := 0, wl := 0, wu := 0 }, msg.frame_id = "map") ∧
    (∀ msg ∈ publish_gps { lat := 1, lon := 2, alt := 3 }, msg.frame_id = "map") ∧
    (∀ m ∈ publish_location [LocPoint.mk 1 2 [3]], m.frame_id = "map") :=
  ⟨publish_frames_map.2.1 [cubeCorners] [3] none true
      [boxMarker 3 cubeCorners { r := 0, g := 1, b := 1, a := 1 },
       textMarker 3 cubeCorners { r := 0, g := 1, b := 1, a := 1 }] rfl,
   publish_frames_map.2.2.1,
   publish_frames_map.2.2.2.1 [[1, 2, 3]] "xyz"
     [{ frame_id := FRAME_ID, fields := xyzFields, rows := [[(1 : ℚ), 2, 3]] }] rfl,
   publish_frames_map.2.2.2.2.1 (fun _ _ _ => (0, 0, 0, 1))
     { roll := 0, pitch := 0, yaw := 0, af := 0, al := 0, au := 0
       wf := 0, wl := 0, wu := 0 },
   publish_frames_map.2.2.2.2.2.1 { lat := 1, lon := 2, alt := 3 },
   publish_frames_map.2.2.2.2.2.2 [LocPoint.mk 1 2 [3]]⟩

/-- C9 counterexample: with a non-None but empty borders list and a
rectangle operation that always changes the image, `publish_camera` leaves
the caller's buffer exactly as supplied (5), so the input image is not
always mutated. -/
theorem publish_camera_mutation_refuted :
    ((@publish_camera ℕ ℕ (fun img _ _ _ => img + 1) (fun i => Except.ok i) 5 (some [])
        none false).map fun out => out.image)
      = Except.ok 5 :=
  rfl

/-- C9 (amended): when `publish_camera` is given a non-None borders list and
the drawing loop succeeds, the caller's buffer ends in the fully drawn state
`img2` — before any publish, and also when a later conversion error prevents
publishing — so the input is left changed exactly when drawing the supplied
rectangles changes it (in particular never for an empty borders list). -/
theorem publish_camera_draws_in_place {Img Msg : Type}
    (rect : Img → ℤ × ℤ → ℤ × ℤ → ℕ × ℕ × ℕ → Img)
    (convert : Img → Except String Msg) (image : Img) (bs : List Box2D)
    (object_types : Option (List String)) (log : Bool) (img2 : Img)
    (hd : drawBorders rect object_types image 0 bs = Except.ok img2) :
    ∃ out, publish_camera rect convert image (some bs) object_types log
        = Except.ok out ∧
      out.image = img2 ∧
      (∀ e, convert img2 = Except.error e → out.published = []) ∧
      (img2 ≠ image → out.image ≠ image) := by
  cases hc : convert img2 with
  | ok msg =>
    refine ⟨{ image := img2, published := [msg]
              logs := if log then ["camera image published"] else [] },
      ?_, rfl, ?_, fun h => h⟩
    · simp [publish_camera, drawPhase, hd, hc]
    · intro e he
      exact absurd he (by simp)
  | error e0 =>
    refine ⟨{ image := img2, published := []
              logs := e0 :: (if log then ["camera image published"] else []) },
      ?_, rfl, fun _ _ => rfl, fun h => h⟩
    simp [publish_camera, drawPhase, hd, hc]

/-- Witness for C9 (amended): one border, a rectangle operation that
increments the buffer, and a failing conversion. -/
theorem publish_camera_draws_in_place_witness :
    ∃ out, @publish_camera ℕ ℕ (fun img _ _ _ => img + 1)
        (fun _ => Except.error "CvBridgeError") 0 (some [Box2D.mk 0 0 1 1]) none false
        = Except.ok out ∧
      out.image = 1 ∧
      (∀ e, (Except.error "CvBridgeError" : Except String ℕ) = Except.error e →
        out.published = []) ∧
      ((1 : ℕ) ≠ 0 → out.image ≠ 0) :=
  publish_camera_draws_in_place (fun img _ _ _ => img + 1)
    (fun _ => Except.error "CvBridgeError") 0 [Box2D.mk 0 0 1 1] none false 1 rfl

end PublishUtils
